import Mathlib

/-!
Shallow embedding of the Wassenger follow-up bot (`src/app.py`).

The program is a Flask webhook plus a background scheduler thread over a
Postgres table `follow_ups(contact_id PRIMARY KEY, phone_number, status,
scheduled_time, history JSONB)`.  We embed:

* the table as an association list keyed by `contact_id`;
* timestamps as `Int` (seconds); `timedelta(minutes=1)` is `+ 60`;
* the OpenAI completion call and the Wassenger gateway call as oracle
  parameters (`Completion`, `Gateway`): the Python code's behaviour is a
  pure function of their outcomes;
* each Python function (`send_message_to_wassenger`,
  `send_initial_follow_up`, `handle_ai_reply`, `background_worker`'s cycle,
  `wassenger_webhook`) as a Lean function returning the new store together
  with the list of dispatch attempts it made.
-/

/-- One JSON history entry `{"role": ..., "content": ...}`. -/
structure Turn where
  role : String
  content : String
deriving DecidableEq, Repr

/-- One row of the `follow_ups` table (the key `contact_id` is kept outside). -/
structure Row where
  phone_number : String
  status : String
  scheduled_time : Int
  history : List Turn
deriving DecidableEq, Repr

/-- The `follow_ups` table: entries keyed by `contact_id`.  `contact_id` is a
primary key, so the code never inserts a second entry for an existing key. -/
abbrev Store := List (String × Row)

/-- `SELECT ... WHERE contact_id = %s` followed by `fetchone()`: the first
entry with the given key. -/
def lookupRow (st : Store) (cid : String) : Option Row :=
  (st.find? (fun p => p.1 == cid)).map (fun p => p.2)

/-- `UPDATE follow_ups SET ... WHERE contact_id = %s`: replace every entry
with the given key by the new row. -/
def updateRow (st : Store) (cid : String) (r : Row) : Store :=
  st.map (fun p => if p.1 == cid then (cid, r) else p)

/-- Outcome of the `requests.post` to the Wassenger gateway. -/
inductive Gateway where
  | http (code : Nat) (body : String)
  | netErr (msg : String)
deriving DecidableEq, Repr

/-- Whether the gateway call delivered the message: `raise_for_status()`
raises exactly for codes in `[400, 600)`, and a network error delivers
nothing. -/
def deliveryOk : Gateway → Bool
  | .http code _ => !(decide (400 ≤ code) && decide (code < 600))
  | .netErr _ => false

/-- What a Python call returns to its caller: a normal value or a raised
exception. -/
inductive Outcome (α : Type) where
  | ret (a : α)
  | exn (msg : String)
deriving DecidableEq, Repr

/-- The `print` line emitted by `send_message_to_wassenger`. -/
inductive SendLog where
  | sentOk (phone : String)
  | httpError (body : String)
  | otherError (msg : String)
deriving DecidableEq, Repr

/-- `send_message_to_wassenger(phone, message_content)` (`src/app.py:45`):
posts to the gateway; `HTTPError` and every other exception are caught and
printed, so the function always returns `None` to its caller.  The first
component is the caller-visible outcome, the second the log line. -/
def send_message_to_wassenger (phone _message_content : String) (gw : Gateway) :
    Outcome Unit × SendLog :=
  match gw with
  | .http code body =>
      if 400 ≤ code ∧ code < 600 then (.ret (), .httpError body)
      else (.ret (), .sentOk phone)
  | .netErr m => (.ret (), .otherError m)

/-- Result of the OpenAI chat-completion call. -/
inductive Completion where
  | ok (text : String)
  | fail
deriving DecidableEq, Repr

/-- A dispatch attempt: destination phone, text, and whether the gateway
delivered it (`deliveryOk` of the gateway outcome at that call). -/
abbrev Dispatch := String × String × Bool

/-- `send_initial_follow_up(contact_id, phone_number)` (`src/app.py:58`):
generate the first message, send it, then append the assistant turn and set
`status = 'ongoing'`.  The whole body is inside `try/except`, so a failing
completion call aborts before the send and the database write; a failing
*send* is swallowed inside `send_message_to_wassenger` and execution
continues to the database write.  If no row exists, the message was already
sent but nothing is recorded (the code prints a warning). -/
def send_initial_follow_up (cid phone : String) (comp : Completion) (gw : Gateway)
    (st : Store) : Store × List Dispatch :=
  match comp with
  | .fail => (st, [])
  | .ok text =>
      let sent : List Dispatch := [(phone, text, deliveryOk gw)]
      match lookupRow st cid with
      | some row =>
          (updateRow st cid
            { row with status := "ongoing", history := row.history ++ [⟨"assistant", text⟩] },
           sent)
      | none => (st, sent)

/-- `handle_ai_reply(contact_id, phone_number, message_content)`
(`src/app.py:93`): skip unless a row with `status = 'ongoing'` exists;
otherwise append the user turn in memory, request a completion over the
history, send the reply (send failures are swallowed), append the assistant
turn and commit the new history in one `UPDATE`.  A failing completion call
raises before any write, leaving the store unchanged. -/
def handle_ai_reply (cid phone msg : String) (comp : Completion) (gw : Gateway)
    (st : Store) : Store × List Dispatch :=
  match lookupRow st cid with
  | none => (st, [])
  | some row =>
      if row.status != "ongoing" then (st, [])
      else
        match comp with
        | .fail => (st, [])
        | .ok reply =>
            let hist2 := row.history ++ [⟨"user", msg⟩, ⟨"assistant", reply⟩]
            (updateRow st cid { row with history := hist2 },
             [(phone, reply, deliveryOk gw)])

example :
    handle_ai_reply "c1" "p" "hi" (.ok "r") (.netErr "down")
      [("c1", ⟨"p", "ongoing", 0, []⟩)] =
    ([("c1", ⟨"p", "ongoing", 0, [⟨"user", "hi"⟩, ⟨"assistant", "r"⟩]⟩)],
     [("p", "r", false)]) := by decide

example :
    send_initial_follow_up "c1" "p" (.ok "hello") (.http 200 "ok")
      [("c1", ⟨"p", "scheduled", 60, []⟩)] =
    ([("c1", ⟨"p", "ongoing", 60, [⟨"assistant", "hello"⟩]⟩)],
     [("p", "hello", true)]) := by decide

/-! ## Scheduler (`background_worker`, `src/app.py:135`) -/

/-- The `SELECT contact_id, phone_number FROM follow_ups WHERE status =
'scheduled' AND scheduled_time < now` query of one wake cycle. -/
def select_due (now : Int) (st : Store) : List (String × String) :=
  (st.filter (fun p => p.2.status == "scheduled" && decide (p.2.scheduled_time < now))).map
    (fun p => (p.1, p.2.phone_number))

/-- The `for contact_id, phone_number in due_follow_ups` loop: process the
selected rows in order; each row's `send_initial_follow_up` call catches all
its own exceptions, so every row of the list is reached.  `comp`/`gw` give
each contact's completion and gateway outcome for this cycle. -/
def run_due (due : List (String × String)) (comp : String → Completion)
    (gw : String → Gateway) (st : Store) : Store × List Dispatch :=
  match due with
  | [] => (st, [])
  | (cid, phone) :: rest =>
      let r1 := send_initial_follow_up cid phone (comp cid) (gw cid) st
      let r2 := run_due rest comp gw r1.1
      (r2.1, r1.2 ++ r2.2)

/-- One wake cycle of `background_worker`: select the due rows, then process
them. -/
def worker_cycle (now : Int) (comp : String → Completion) (gw : String → Gateway)
    (st : Store) : Store × List Dispatch :=
  run_due (select_due now st) comp gw st

/-- Several sequential wake cycles of one `background_worker` thread (the
cycle body is wrapped in `try/except`, so the loop always reaches the next
wake). -/
def worker_run (wakes : List (Int × (String → Completion) × (String → Gateway)))
    (st : Store) : Store × List Dispatch :=
  match wakes with
  | [] => (st, [])
  | (now, comp, gw) :: rest =>
      let r1 := worker_cycle now comp gw st
      let r2 := worker_run rest r1.1
      (r2.1, r1.2 ++ r2.2)

/-- Two overlapping wake cycles: both `SELECT` statements run before either
cycle's processing commits its `UPDATE`s.  The selection and the transition
to `ongoing` are separate SQL statements with the completion and gateway
calls between them, and nothing in the code prevents this interleaving (the
module-level `threading.Thread(target=background_worker)` is started once
per process, so two gunicorn workers each run such a loop against the shared
table). -/
def overlapped_cycles (now : Int) (comp : String → Completion) (gw : String → Gateway)
    (st : Store) : Store × List Dispatch :=
  let due1 := select_due now st
  let due2 := select_due now st
  let r1 := run_due due1 comp gw st
  let r2 := run_due due2 comp gw r1.1
  (r2.1, r1.2 ++ r2.2)

/-! ## Webhook (`wassenger_webhook`, `src/app.py:164`) -/

/-- The fields of the webhook JSON payload that the handler reads.  A
missing key is `none`; `content` defaults to `""` via `get("content", "")`. -/
structure Event where
  event : Option String
  top_id : Option String
  data_wid : Option String
  data_contact_id : Option String
  data_phone : Option String
  data_contact_phone : Option String
  chat_labels : List String
  content : Option String
  fromMe : Option Bool
deriving DecidableEq, Repr

/-- Python `a or b` on optional strings: `a` unless it is missing or empty. -/
def pyOrS : Option String → Option String → Option String
  | some s, b => if s = "" then b else some s
  | none, b => b

/-- `payload.get("id") or payload.get("data", \x7b\x7d).get("wid") or
payload.get("data", \x7b\x7d).get("contact", \x7b\x7d).get("id")`. -/
def resolve_contact_id (ev : Event) : Option String :=
  pyOrS ev.top_id (pyOrS ev.data_wid ev.data_contact_id)

/-- `payload.get("data", \x7b\x7d).get("phone") or
payload.get("data", \x7b\x7d).get("contact", \x7b\x7d).get("phone")`. -/
def resolve_phone (ev : Event) : Option String :=
  pyOrS ev.data_phone ev.data_contact_phone

/-- Python truthiness of an optional string: missing and `""` are falsy. -/
def pyTruthy : Option String → Bool
  | none => false
  | some s => s != ""

/-- Python `str.strip()`: drop leading and trailing whitespace. -/
def pyStrip (s : String) : String :=
  ⟨((s.data.dropWhile Char.isWhitespace).reverse.dropWhile Char.isWhitespace).reverse⟩

/-- Python `str.upper()` (on the ASCII alphabet the code compares against). -/
def pyUpper (s : String) : String := ⟨s.data.map Char.toUpper⟩

/-- The four HTTP responses `wassenger_webhook` can return. -/
inductive Resp where
  | errMissing
  | alreadyExists
  | scheduledResp
  | okResp
deriving DecidableEq, Repr

/-- HTTP status code of each response. -/
def respCode : Resp → Nat
  | .errMissing => 400
  | _ => 200

/-- The `"status"` field of each response's JSON body. -/
def respStatus : Resp → String
  | .errMissing => "error"
  | _ => "success"

/-- Result of one webhook call: the HTTP response, the store after the
handler's own writes, and the `handle_ai_reply` threads it spawned (as
`(contact_id, phone_number, message_body)` triples). -/
structure WebhookOut where
  resp : Resp
  store : Store
  spawned : List (String × String × String)
deriving DecidableEq, Repr

/-- The row inserted by both trigger branches: `status='scheduled'`, empty
history, `scheduled_time = now + timedelta(minutes=1)`. -/
def newRow (phone : String) (now : Int) : Row :=
  { phone_number := phone, status := "scheduled", scheduled_time := now + 60, history := [] }

/-- The shared create-or-no-op body of both trigger branches
(`src/app.py:183` and `src/app.py:209`): if a row for `contact_id` exists,
return "already exists" and change nothing, else insert the new row. -/
def schedule_follow_up (cid phone : String) (now : Int) (st : Store) : Resp × Store :=
  match lookupRow st cid with
  | some _ => (.alreadyExists, st)
  | none => (.scheduledResp, st ++ [(cid, newRow phone now)])

/-- `wassenger_webhook()` (`src/app.py:164`). -/
def wassenger_webhook (ev : Event) (now : Int) (st : Store) : WebhookOut :=
  let cid? := resolve_contact_id ev
  let phone? := resolve_phone ev
  if !pyTruthy phone? || !pyTruthy cid? then
    ⟨.errMissing, st, []⟩
  else
    let cid := cid?.getD ""
    let phone := phone?.getD ""
    if ev.event = some "contact:update" then
      if "Follow-up" ∈ ev.chat_labels then
        let r := schedule_follow_up cid phone now st
        ⟨r.1, r.2, []⟩
      else ⟨.okResp, st, []⟩
    else if ev.event = some "message:in:new" then
      let body := pyStrip (ev.content.getD "")
      if ev.fromMe = some true ∧ pyUpper body = "START FOLLOWUP" then
        let r := schedule_follow_up cid phone now st
        ⟨r.1, r.2, []⟩
      else if ev.fromMe = some false then
        ⟨.okResp, st, [(cid, phone, body)]⟩
      else ⟨.okResp, st, []⟩
    else ⟨.okResp, st, []⟩

/-- Run the `handle_ai_reply` threads a webhook call spawned (each one's
completion and gateway outcome given by oracles). -/
def run_spawned (sp : List (String × String × String)) (comp : String → Completion)
    (gw : String → Gateway) (st : Store) : Store × List Dispatch :=
  match sp with
  | [] => (st, [])
  | (cid, phone, msg) :: rest =>
      let r1 := handle_ai_reply cid phone msg (comp cid) (gw cid) st
      let r2 := run_spawned rest comp gw r1.1
      (r2.1, r1.2 ++ r2.2)

/-- One webhook event processed to completion: the handler itself plus the
reply threads it spawned. -/
def process_event (ev : Event) (now : Int) (comp : String → Completion)
    (gw : String → Gateway) (st : Store) : Resp × Store × List Dispatch :=
  let o := wassenger_webhook ev now st
  let r := run_spawned o.spawned comp gw o.store
  (o.resp, r.1, r.2)

/-- Store effect of one webhook call (reply threads aside). -/
def apply_event (st : Store) (p : Event × Int) : Store :=
  (wassenger_webhook p.1 p.2 st).store

/-- Store effect of a sequence of webhook calls. -/
def process_events (evs : List (Event × Int)) (st : Store) : Store :=
  evs.foldl apply_event st

/-- The label-trigger shape: a `contact:update` whose labels contain
`"Follow-up"`. -/
def is_label_trigger (ev : Event) : Bool :=
  ev.event == some "contact:update" && ev.chat_labels.contains "Follow-up"

/-- The keyword-trigger shape: an operator message whose stripped, uppercased
text is the sentinel. -/
def is_keyword_trigger (ev : Event) : Bool :=
  ev.event == some "message:in:new" && ev.fromMe == some true &&
    pyUpper (pyStrip (ev.content.getD "")) == "START FOLLOWUP"

/-- A qualifying trigger event that resolves to contact `cid` (with a usable
phone number). -/
def is_trigger_for (ev : Event) (cid : String) : Bool :=
  resolve_contact_id ev == some cid && cid != "" && pyTruthy (resolve_phone ev) &&
    (is_label_trigger ev || is_keyword_trigger ev)

example :
    wassenger_webhook
      { event := some "contact:update", top_id := some "c1", data_wid := none,
        data_contact_id := none, data_phone := some "+100", data_contact_phone := none,
        chat_labels := ["Follow-up"], content := none, fromMe := none } 0 [] =
    ⟨.scheduledResp, [("c1", newRow "+100" 0)], []⟩ := by decide

example :
    wassenger_webhook
      { event := some "message:in:new", top_id := some "m9", data_wid := none,
        data_contact_id := none, data_phone := some "+100", data_contact_phone := none,
        chat_labels := [], content := some "  start Followup ", fromMe := some true }
      5 [] =
    ⟨.scheduledResp, [("m9", newRow "+100" 5)], []⟩ := by decide

/-! ## The two database phases of `handle_ai_reply`, and their interleaving

`handle_ai_reply` touches the store exactly twice: the `SELECT status,
history` at its start and the `UPDATE ... SET history` at its end, with the
completion and gateway calls in between.  Each webhook event runs
`handle_ai_reply` on its own `threading.Thread` and there is no per-contact
lock, so two calls for the same contact may interleave these phases freely.
-/

/-- The `SELECT status, history FROM follow_ups WHERE contact_id = %s` phase:
the in-memory snapshot the call works from. -/
def reply_read (cid : String) (st : Store) : Option (String × List Turn) :=
  (lookupRow st cid).map (fun r => (r.status, r.history))

/-- The `UPDATE follow_ups SET history = %s WHERE contact_id = %s` phase:
overwrite the stored history with the in-memory list (a no-op if the row has
vanished). -/
def reply_write (cid : String) (hist : List Turn) (st : Store) : Store :=
  match lookupRow st cid with
  | none => st
  | some row => updateRow st cid { row with history := hist }

/-- Two `handle_ai_reply` calls for the same contact interleaved so that both
`SELECT`s run before either `UPDATE` (call A commits first, call B second) —
an interleaving the per-event reply threads permit. -/
def concurrent_replies (cid msgA replyA msgB replyB : String) (st : Store) : Store :=
  match reply_read cid st with
  | some (s, h) =>
      if s == "ongoing" then
        let stA := reply_write cid (h ++ [⟨"user", msgA⟩, ⟨"assistant", replyA⟩]) st
        reply_write cid (h ++ [⟨"user", msgB⟩, ⟨"assistant", replyB⟩]) stA
      else st
  | none => st

/-- The read/write decomposition agrees with `handle_ai_reply` when the call
runs without interference: reading and then writing against the same store
is exactly the atomic function's store effect. -/
theorem handle_ai_reply_decomp (cid phone msg reply : String) (gw : Gateway) (st : Store) :
    (handle_ai_reply cid phone msg (.ok reply) gw st).1 =
      match reply_read cid st with
      | none => st
      | some (s, h) =>
          if s == "ongoing" then
            reply_write cid (h ++ [⟨"user", msg⟩, ⟨"assistant", reply⟩]) st
          else st := by
  cases hl : lookupRow st cid with
  | none => simp [handle_ai_reply, reply_read, hl]
  | some row =>
      by_cases hs : row.status = "ongoing"
      · simp [handle_ai_reply, reply_read, reply_write, hl, hs]
      · simp [handle_ai_reply, reply_read, reply_write, hl, hs]

/-! ## Store lemmas -/

/-- `lookupRow` on a cons: hit the head key or continue. -/
theorem lookupRow_cons (p : String × Row) (rest : Store) (cid : String) :
    lookupRow (p :: rest) cid =
      if (p.1 == cid) = true then some p.2 else lookupRow rest cid := by
  by_cases hp : (p.1 == cid) = true
  · simp [lookupRow, List.find?_cons_of_pos _ hp, hp]
  · simp [lookupRow, List.find?_cons_of_neg _ hp, hp]

/-- `updateRow` on a cons. -/
theorem updateRow_cons (p : String × Row) (rest : Store) (cid : String) (r : Row) :
    updateRow (p :: rest) cid r =
      (if (p.1 == cid) = true then (cid, r) else p) :: updateRow rest cid r := rfl

theorem lookupRow_append_self (st : Store) (cid : String) (r : Row)
    (h : lookupRow st cid = none) :
    lookupRow (st ++ [(cid, r)]) cid = some r := by
  induction st with
  | nil => simp [lookupRow]
  | cons p rest ih =>
      rw [lookupRow_cons] at h
      rw [List.cons_append, lookupRow_cons]
      by_cases hp : (p.1 == cid) = true
      · rw [if_pos hp] at h
        simp at h
      · rw [if_neg hp] at h
        rw [if_neg hp]
        exact ih h

/-- After `updateRow`, looking up the key finds the new row (provided the key
was present). -/
theorem lookupRow_updateRow (st : Store) (cid : String) (r old : Row)
    (h : lookupRow st cid = some old) :
    lookupRow (updateRow st cid r) cid = some r := by
  induction st with
  | nil => simp [lookupRow] at h
  | cons p rest ih =>
      rw [lookupRow_cons] at h
      by_cases hp : (p.1 == cid) = true
      · rw [updateRow_cons, if_pos hp, lookupRow_cons,
          if_pos (by simp : ((((cid, r) : String × Row)).1 == cid) = true)]
      · rw [if_neg hp] at h
        rw [updateRow_cons, if_neg hp, lookupRow_cons, if_neg hp]
        exact ih h

/-- Every entry of `updateRow st cid r` that carries key `cid` is the new
row `r` (the SQL `UPDATE ... WHERE contact_id = %s` rewrites all of them). -/
theorem updateRow_entry (st : Store) (cid : String) (r : Row) (p : String × Row)
    (hp : p ∈ updateRow st cid r) (hk : p.1 = cid) : p.2 = r := by
  rcases List.mem_map.mp hp with ⟨q, _, hq⟩
  by_cases hqc : (q.1 == cid) = true
  · rw [if_pos hqc] at hq
    rw [← hq]
  · rw [if_neg hqc] at hq
    apply absurd _ hqc
    simp [hq, hk]

/-- Both trigger branches of the webhook reduce to the shared
create-or-no-op `schedule_follow_up` on the resolved contact: an existing
row makes the call a pure no-op, a missing row gets the fresh `scheduled`
row appended. -/
theorem webhook_trigger_spec (ev : Event) (t : Int) (cid : String) (st : Store)
    (h : is_trigger_for ev cid = true) :
    wassenger_webhook ev t st =
      match lookupRow st cid with
      | some _ => ⟨.alreadyExists, st, []⟩
      | none =>
          ⟨.scheduledResp, st ++ [(cid, newRow ((resolve_phone ev).getD "") t)], []⟩ := by
  simp only [is_trigger_for, Bool.and_eq_true, Bool.or_eq_true, beq_iff_eq, bne_iff_ne,
    ne_eq] at h
  obtain ⟨⟨⟨hcid, hcne⟩, hph⟩, htr⟩ := h
  have hct : pyTruthy (some cid) = true := by simp [pyTruthy, hcne]
  rcases htr with hl | hk
  · simp only [is_label_trigger, Bool.and_eq_true, beq_iff_eq] at hl
    obtain ⟨hev, hlab⟩ := hl
    have hmem : "Follow-up" ∈ ev.chat_labels := by simpa using hlab
    cases hlk : lookupRow st cid with
    | some r =>
        simp [wassenger_webhook, schedule_follow_up, hph, hcid, hct, hev, hmem, hlk]
    | none =>
        simp [wassenger_webhook, schedule_follow_up, hph, hcid, hct, hev, hmem, hlk]
  · simp only [is_keyword_trigger, Bool.and_eq_true, beq_iff_eq] at hk
    obtain ⟨⟨hev, hfm⟩, hkw⟩ := hk
    cases hlk : lookupRow st cid with
    | some r =>
        simp [wassenger_webhook, schedule_follow_up, hph, hcid, hct, hev, hfm, hkw, hlk]
    | none =>
        simp [wassenger_webhook, schedule_follow_up, hph, hcid, hct, hev, hfm, hkw, hlk]

/-- A sequence of webhook calls, every one of which is a qualifying trigger
for a contact that already has a row, leaves the store untouched. -/
theorem process_events_noop (evs : List (Event × Int)) (cid : String) (r : Row) (st : Store)
    (hr : lookupRow st cid = some r)
    (h : ∀ p ∈ evs, is_trigger_for p.1 cid = true) :
    process_events evs st = st := by
  induction evs with
  | nil => rfl
  | cons p rest ih =>
      have h1 : is_trigger_for p.1 cid = true := h p (List.mem_cons_self p rest)
      have ha : apply_event st p = st := by
        rw [apply_event, webhook_trigger_spec p.1 p.2 cid st h1, hr]
      calc process_events (p :: rest) st = process_events rest (apply_event st p) := rfl
        _ = process_events rest st := by rw [ha]
        _ = st := ih (fun q hq => h q (List.mem_cons_of_mem p hq))

/-- A wake cycle in which every selected row's completion call fails changes
nothing and dispatches nothing. -/
theorem run_due_all_fail (due : List (String × String)) (gw : String → Gateway)
    (st : Store) :
    run_due due (fun _ => Completion.fail) gw st = (st, []) := by
  induction due with
  | nil => rfl
  | cons d rest ih => simp [run_due, send_initial_follow_up, ih]

/-- A row rewritten to a non-`scheduled` status is never selected as due. -/
theorem select_due_updateRow (st : Store) (cid : String) (r : Row) (t : Int)
    (hr : r.status ≠ "scheduled") :
    ∀ x ∈ select_due t (updateRow st cid r), x.1 ≠ cid := by
  intro x hx hxc
  rcases List.mem_map.mp hx with ⟨p, hpf, hpx⟩
  rcases List.mem_filter.mp hpf with ⟨hpm, hps⟩
  have hpk : p.1 = cid := by rw [← hpx] at hxc; exact hxc
  have := updateRow_entry st cid r p hpm hpk
  rw [this] at hps
  simp [Bool.and_eq_true] at hps
  exact hr hps.1

/-! ## Claims -/

/-- C1: For every sequence of label-trigger or keyword-trigger events
carrying the same `contact_id`, at most one Conversation row is ever
created: the first qualifying trigger appends a single row with status
`scheduled`, and every subsequent trigger for that contact (a row now
existing) leaves the store — and hence the stored row — unchanged. -/
theorem C1_idempotent_creation (e : Event) (t : Int) (rest : List (Event × Int))
    (cid : String) (st : Store)
    (h0 : lookupRow st cid = none)
    (h1 : is_trigger_for e cid = true)
    (h2 : ∀ p ∈ rest, is_trigger_for p.1 cid = true) :
    (wassenger_webhook e t st).store
        = st ++ [(cid, newRow ((resolve_phone e).getD "") t)] ∧
    lookupRow (wassenger_webhook e t st).store cid
        = some (newRow ((resolve_phone e).getD "") t) ∧
    (newRow ((resolve_phone e).getD "") t).status = "scheduled" ∧
    process_events rest (wassenger_webhook e t st).store
        = (wassenger_webhook e t st).store := by
  have hw := webhook_trigger_spec e t cid st h1
  rw [h0] at hw
  have hst : (wassenger_webhook e t st).store
      = st ++ [(cid, newRow ((resolve_phone e).getD "") t)] := by rw [hw]
  refine ⟨hst, ?_, rfl, ?_⟩
  · rw [hst]
    exact lookupRow_append_self st cid _ h0
  · rw [hst]
    exact process_events_noop rest cid _ _ (lookupRow_append_self st cid _ h0) h2

/-- A concrete label-trigger event for contact `"C1"`. -/
def c1Ev1 : Event :=
  { event := some "contact:update", top_id := some "C1", data_wid := none,
    data_contact_id := none, data_phone := some "+100", data_contact_phone := none,
    chat_labels := ["Follow-up"], content := none, fromMe := none }

/-- A concrete keyword-trigger event for the same contact. -/
def c1Ev2 : Event :=
  { event := some "message:in:new", top_id := some "C1", data_wid := none,
    data_contact_id := none, data_phone := some "+100", data_contact_phone := none,
    chat_labels := [], content := some " start Followup", fromMe := some true }

/-- Witness for C1: a label trigger followed by a keyword trigger for the
same contact creates exactly one row and the second trigger is a no-op. -/
theorem C1_idempotent_creation_witness :
    (wassenger_webhook c1Ev1 0 []).store
        = [] ++ [("C1", newRow ((resolve_phone c1Ev1).getD "") 0)] ∧
    lookupRow (wassenger_webhook c1Ev1 0 []).store "C1"
        = some (newRow ((resolve_phone c1Ev1).getD "") 0) ∧
    (newRow ((resolve_phone c1Ev1).getD "") 0).status = "scheduled" ∧
    process_events [(c1Ev2, 5)] (wassenger_webhook c1Ev1 0 []).store
        = (wassenger_webhook c1Ev1 0 []).store :=
  C1_idempotent_creation c1Ev1 0 [(c1Ev2, 5)] "C1" [] (by decide) (by decide) (by decide)

/-- C2 counterexample: one due row, two overlapping wake cycles (both
`SELECT`s run before either cycle's `UPDATE` commits, as happens when two
processes each run `background_worker`): the initial-message path runs — and
dispatches — twice for the same row. -/
theorem C2_counterexample :
    (overlapped_cycles 1 (fun _ => .ok "hello") (fun _ => .http 200 "ok")
        [("C1", ⟨"+100", "scheduled", 0, []⟩)]).2 =
      [("+100", "hello", true), ("+100", "hello", true)] := by decide

/-- C2 (amended): the selection and the transition to `ongoing` are *not*
one atomic claim — the `UPDATE` runs inside `send_initial_follow_up` after
the completion and dispatch calls, and overlapping cycles re-fire the row
(see the counterexample).  What the code does guarantee: cycles of the
single in-process worker thread run sequentially, and a row whose
initial-message processing succeeds becomes `ongoing` and is never selected
as due by any later cycle. -/
theorem C2_success_not_reselected (cid ph s : String) (row : Row) (st : Store)
    (gw : Gateway) (t2 : Int)
    (hl : lookupRow st cid = some row) :
    ∃ r : Row,
      lookupRow (send_initial_follow_up cid ph (.ok s) gw st).1 cid = some r ∧
      r.status = "ongoing" ∧
      ∀ x ∈ select_due t2 (send_initial_follow_up cid ph (.ok s) gw st).1, x.1 ≠ cid := by
  have h1 : (send_initial_follow_up cid ph (.ok s) gw st).1
      = updateRow st cid
          { row with status := "ongoing", history := row.history ++ [⟨"assistant", s⟩] } := by
    simp [send_initial_follow_up, hl]
  refine ⟨{ row with status := "ongoing", history := row.history ++ [⟨"assistant", s⟩] },
    ?_, rfl, ?_⟩
  · rw [h1]
    exact lookupRow_updateRow st cid _ row hl
  · rw [h1]
    exact select_due_updateRow st cid _ t2 (by simp)

/-- Witness for C2 (amended) at a concrete store. -/
theorem C2_success_not_reselected_witness :
    ∃ r : Row,
      lookupRow (send_initial_follow_up "C1" "+100" (.ok "hello") (.http 200 "ok")
          [("C1", ⟨"+100", "scheduled", 0, []⟩)]).1 "C1" = some r ∧
      r.status = "ongoing" ∧
      ∀ x ∈ select_due 120 (send_initial_follow_up "C1" "+100" (.ok "hello") (.http 200 "ok")
          [("C1", ⟨"+100", "scheduled", 0, []⟩)]).1, x.1 ≠ "C1" :=
  C2_success_not_reselected "C1" "+100" "hello" ⟨"+100", "scheduled", 0, []⟩
    [("C1", ⟨"+100", "scheduled", 0, []⟩)] (.http 200 "ok") 120 (by decide)

/-- C3 counterexample: the gateway call fails (network error — nothing was
delivered), yet `handle_ai_reply` still appends the user and assistant turns
and commits them: a recorded-but-unsent transcript, so a failing dispatch
step does not abort before the transcript mutation. -/
theorem C3_counterexample :
    deliveryOk (Gateway.netErr "down") = false ∧
    handle_ai_reply "C1" "+100" "hi" (.ok "reply") (.netErr "down")
        [("C1", ⟨"+100", "ongoing", 0, []⟩)] =
      ([("C1", ⟨"+100", "ongoing", 0, [⟨"user", "hi"⟩, ⟨"assistant", "reply"⟩]⟩)],
       [("+100", "reply", false)]) := by decide

/-- C3 (amended): a failing completion-service call aborts both reply paths
before any transcript mutation and before any dispatch; a failing *dispatch*
however is swallowed inside the dispatcher, and the contextual path appends
and commits the user and assistant turns whatever the gateway outcome, so a
recorded-but-unsent state can occur. -/
theorem C3_completion_failure_aborts (cid phone msg reply : String) (gw : Gateway)
    (st : Store) (row : Row)
    (hl : lookupRow st cid = some row) (hs : row.status = "ongoing") :
    handle_ai_reply cid phone msg .fail gw st = (st, []) ∧
    send_initial_follow_up cid phone .fail gw st = (st, []) ∧
    handle_ai_reply cid phone msg (.ok reply) gw st =
      (updateRow st cid
        { row with history := row.history ++ [⟨"user", msg⟩, ⟨"assistant", reply⟩] },
       [(phone, reply, deliveryOk gw)]) := by
  refine ⟨?_, rfl, ?_⟩
  · simp [handle_ai_reply, hl, hs]
  · simp [handle_ai_reply, hl, hs]

/-- Witness for C3 (amended) at a concrete store and gateway outcome. -/
theorem C3_completion_failure_aborts_witness :
    handle_ai_reply "C1" "+100" "m" .fail (.netErr "down")
        [("C1", ⟨"+100", "ongoing", 0, []⟩)] = ([("C1", ⟨"+100", "ongoing", 0, []⟩)], []) ∧
    send_initial_follow_up "C1" "+100" .fail (.netErr "down")
        [("C1", ⟨"+100", "ongoing", 0, []⟩)] = ([("C1", ⟨"+100", "ongoing", 0, []⟩)], []) ∧
    handle_ai_reply "C1" "+100" "m" (.ok "r") (.netErr "down")
        [("C1", ⟨"+100", "ongoing", 0, []⟩)] =
      (updateRow [("C1", ⟨"+100", "ongoing", 0, []⟩)] "C1"
        { (⟨"+100", "ongoing", 0, []⟩ : Row) with
            history := (⟨"+100", "ongoing", 0, []⟩ : Row).history
              ++ [⟨"user", "m"⟩, ⟨"assistant", "r"⟩] },
       [("+100", "r", deliveryOk (.netErr "down"))]) :=
  C3_completion_failure_aborts "C1" "+100" "m" "r" (.netErr "down")
    [("C1", ⟨"+100", "ongoing", 0, []⟩)] ⟨"+100", "ongoing", 0, []⟩ (by decide) rfl

/-- On an `ongoing` row, `handle_ai_reply` with a successful completion
appends the user and assistant turns and commits them, and dispatches the
reply (whatever the gateway outcome). -/
theorem handle_ai_reply_ongoing (cid phone msg reply : String) (gw : Gateway)
    (st : Store) (row : Row)
    (hl : lookupRow st cid = some row) (hs : row.status = "ongoing") :
    handle_ai_reply cid phone msg (.ok reply) gw st =
      (updateRow st cid
        { row with history := row.history ++ [⟨"user", msg⟩, ⟨"assistant", reply⟩] },
       [(phone, reply, deliveryOk gw)]) := by
  simp [handle_ai_reply, hl, hs]

/-- C4 counterexample: two contextual replies whose `SELECT`s both run
before either `UPDATE` (each runs on its own spawned thread with no
per-contact lock): the second `UPDATE` overwrites the first, and the final
transcript holds only the later call's user/assistant pair — the earlier
pair is dropped. -/
theorem C4_counterexample :
    concurrent_replies "C1" "mA" "rA" "mB" "rB" [("C1", ⟨"+100", "ongoing", 0, []⟩)] =
      [("C1", ⟨"+100", "ongoing", 0, [⟨"user", "mB"⟩, ⟨"assistant", "rB"⟩]⟩)] := by decide

/-- C4 (amended): the per-contact read-append-write cycle is *not*
serialized.  When the two calls happen to run strictly one after the other,
the final transcript does contain both user/assistant pairs in order; but in
the interleaving where both reads precede the writes, the later write
overwrites the earlier call's appended turns and only the later pair
survives. -/
theorem C4_sequential_keeps_both_pairs (cid phone msgA replyA msgB replyB : String)
    (gwA gwB : Gateway) (st : Store) (row : Row)
    (hl : lookupRow st cid = some row) (hs : row.status = "ongoing") :
    (∃ r : Row,
        lookupRow (handle_ai_reply cid phone msgB (.ok replyB) gwB
            (handle_ai_reply cid phone msgA (.ok replyA) gwA st).1).1 cid = some r ∧
        r.history = row.history ++ [⟨"user", msgA⟩, ⟨"assistant", replyA⟩,
          ⟨"user", msgB⟩, ⟨"assistant", replyB⟩]) ∧
    (∃ r : Row,
        lookupRow (concurrent_replies cid msgA replyA msgB replyB st) cid = some r ∧
        r.history = row.history ++ [⟨"user", msgB⟩, ⟨"assistant", replyB⟩]) := by
  constructor
  · have hA := handle_ai_reply_ongoing cid phone msgA replyA gwA st row hl hs
    have h2 : lookupRow (handle_ai_reply cid phone msgA (.ok replyA) gwA st).1 cid
        = some { row with
            history := row.history ++ [⟨"user", msgA⟩, ⟨"assistant", replyA⟩] } := by
      rw [hA]
      exact lookupRow_updateRow st cid _ row hl
    have hB := handle_ai_reply_ongoing cid phone msgB replyB gwB
        (handle_ai_reply cid phone msgA (.ok replyA) gwA st).1
        { row with history := row.history ++ [⟨"user", msgA⟩, ⟨"assistant", replyA⟩] } h2 hs
    have h3 : lookupRow (handle_ai_reply cid phone msgB (.ok replyB) gwB
          (handle_ai_reply cid phone msgA (.ok replyA) gwA st).1).1 cid
        = some { row with
            history := (row.history ++ [⟨"user", msgA⟩, ⟨"assistant", replyA⟩])
              ++ [⟨"user", msgB⟩, ⟨"assistant", replyB⟩] } := by
      rw [hB]
      exact lookupRow_updateRow _ cid _ _ h2
    exact ⟨_, h3, by simp⟩
  · have hread : reply_read cid st = some (row.status, row.history) := by
      simp [reply_read, hl]
    have hbeq : (row.status == "ongoing") = true := by simp [hs]
    have hlA : lookupRow (updateRow st cid
          { row with history := row.history ++ [⟨"user", msgA⟩, ⟨"assistant", replyA⟩] }) cid
        = some { row with
            history := row.history ++ [⟨"user", msgA⟩, ⟨"assistant", replyA⟩] } :=
      lookupRow_updateRow st cid _ row hl
    have hcc : concurrent_replies cid msgA replyA msgB replyB st
        = updateRow (updateRow st cid
              { row with history := row.history ++ [⟨"user", msgA⟩, ⟨"assistant", replyA⟩] }) cid
            { row with history := row.history ++ [⟨"user", msgB⟩, ⟨"assistant", replyB⟩] } := by
      simp only [concurrent_replies, hread, hbeq, if_true, reply_write, hl, hlA]
    have hfin : lookupRow (concurrent_replies cid msgA replyA msgB replyB st) cid
        = some { row with
            history := row.history ++ [⟨"user", msgB⟩, ⟨"assistant", replyB⟩] } := by
      rw [hcc]
      exact lookupRow_updateRow _ cid _ _ hlA
    exact ⟨_, hfin, by simp⟩

/-- Witness for C4 (amended) at a concrete store. -/
theorem C4_sequential_keeps_both_pairs_witness :
    (∃ r : Row,
        lookupRow (handle_ai_reply "C1" "+100" "mB" (.ok "rB") (.http 200 "ok")
            (handle_ai_reply "C1" "+100" "mA" (.ok "rA") (.http 200 "ok")
              [("C1", ⟨"+100", "ongoing", 0, []⟩)]).1).1 "C1" = some r ∧
        r.history = ([] : List Turn) ++ [⟨"user", "mA"⟩, ⟨"assistant", "rA"⟩,
          ⟨"user", "mB"⟩, ⟨"assistant", "rB"⟩]) ∧
    (∃ r : Row,
        lookupRow (concurrent_replies "C1" "mA" "rA" "mB" "rB"
            [("C1", ⟨"+100", "ongoing", 0, []⟩)]) "C1" = some r ∧
        r.history = ([] : List Turn) ++ [⟨"user", "mB"⟩, ⟨"assistant", "rB"⟩]) :=
  C4_sequential_keeps_both_pairs "C1" "+100" "mA" "rA" "mB" "rB" (.http 200 "ok")
    (.http 200 "ok") [("C1", ⟨"+100", "ongoing", 0, []⟩)] ⟨"+100", "ongoing", 0, []⟩
    (by decide) rfl

/-- C5: a patient-originated message (`fromMe` false) for a contact with no
Conversation row, or whose row is still `scheduled`, is ignored: the webhook
returns the plain success response, no turn is appended (the store is
unchanged) and nothing is dispatched. -/
theorem C5_premature_reply_ignored (ev : Event) (t : Int) (cid : String)
    (comp : String → Completion) (gw : String → Gateway) (st : Store)
    (he : ev.event = some "message:in:new") (hf : ev.fromMe = some false)
    (hc : resolve_contact_id ev = some cid) (hcne : cid ≠ "")
    (hp : pyTruthy (resolve_phone ev) = true)
    (hrow : lookupRow st cid = none ∨
      ∃ r, lookupRow st cid = some r ∧ r.status = "scheduled") :
    process_event ev t comp gw st = (.okResp, st, []) := by
  have hct : pyTruthy (some cid) = true := by simp [pyTruthy, hcne]
  have hwh : wassenger_webhook ev t st =
      ⟨.okResp, st, [(cid, (resolve_phone ev).getD "", pyStrip (ev.content.getD ""))]⟩ := by
    simp [wassenger_webhook, hp, hc, hct, he, hf]
  have hha : handle_ai_reply cid ((resolve_phone ev).getD "") (pyStrip (ev.content.getD ""))
      (comp cid) (gw cid) st = (st, []) := by
    rcases hrow with hnone | ⟨r, hsome, hsch⟩
    · simp [handle_ai_reply, hnone]
    · simp [handle_ai_reply, hsome, hsch]
  simp [process_event, hwh, run_spawned, hha]

/-- A concrete patient reply while the contact is still `scheduled`. -/
def c5Ev : Event :=
  { event := some "message:in:new", top_id := some "C1", data_wid := none,
    data_contact_id := none, data_phone := some "+100", data_contact_phone := none,
    chat_labels := [], content := some "I am fine", fromMe := some false }

/-- Witness for C5: the reply arrives while the row is still `scheduled`. -/
theorem C5_premature_reply_ignored_witness :
    process_event c5Ev 10 (fun _ => .ok "generated") (fun _ => .http 200 "ok")
        [("C1", ⟨"+100", "scheduled", 60, []⟩)] =
      (.okResp, [("C1", ⟨"+100", "scheduled", 60, []⟩)], []) :=
  C5_premature_reply_ignored c5Ev 10 "C1" (fun _ => .ok "generated")
    (fun _ => .http 200 "ok") [("C1", ⟨"+100", "scheduled", 60, []⟩)]
    rfl rfl (by decide) (by decide) (by decide)
    (Or.inr ⟨⟨"+100", "scheduled", 60, []⟩, by decide, rfl⟩)

/-- C6: an event missing a resolvable `contact_id` or `phone_number` is
rejected with the structured 400 error response — distinct from the 200
success response used for ignored non-trigger events — and has no side
effect on the store and spawns nothing. -/
theorem C6_missing_ids_rejected (ev : Event) (t : Int) (st : Store)
    (h : pyTruthy (resolve_phone ev) = false ∨ pyTruthy (resolve_contact_id ev) = false) :
    wassenger_webhook ev t st = ⟨.errMissing, st, []⟩ ∧
    respCode .errMissing = 400 ∧ respStatus .errMissing = "error" ∧
    respCode .okResp = 200 ∧ respStatus .okResp = "success" ∧
    Resp.errMissing ≠ Resp.okResp := by
  refine ⟨?_, rfl, rfl, rfl, rfl, by decide⟩
  rcases h with h | h <;> simp [wassenger_webhook, h]

/-- A message event with a phone number but no resolvable contact id. -/
def c6Ev : Event :=
  { event := some "message:in:new", top_id := none, data_wid := none,
    data_contact_id := none, data_phone := some "+100", data_contact_phone := none,
    chat_labels := [], content := some "hello", fromMe := some false }

/-- Witness for C6 at a concrete malformed event. -/
theorem C6_missing_ids_rejected_witness :
    wassenger_webhook c6Ev 0 [("C9", ⟨"+1", "ongoing", 0, []⟩)] =
      ⟨.errMissing, [("C9", ⟨"+1", "ongoing", 0, []⟩)], []⟩ ∧
    respCode .errMissing = 400 ∧ respStatus .errMissing = "error" ∧
    respCode .okResp = 200 ∧ respStatus .okResp = "success" ∧
    Resp.errMissing ≠ Resp.okResp :=
  C6_missing_ids_rejected c6Ev 0 [("C9", ⟨"+1", "ongoing", 0, []⟩)] (Or.inr (by decide))

/-- C7: a failing row is confined to its own `send_initial_follow_up`
invocation: the remaining due rows of the cycle are processed exactly as
they would have been, and even a cycle in which every row fails leaves the
loop running — the following wakes execute unchanged. -/
theorem C7_failure_isolated (cid phone : String) (rest : List (String × String))
    (comp : String → Completion) (gw gw2 : String → Gateway) (st st2 : Store) (t : Int)
    (wakes : List (Int × (String → Completion) × (String → Gateway)))
    (h : comp cid = .fail) :
    run_due ((cid, phone) :: rest) comp gw st = run_due rest comp gw st ∧
    worker_run ((t, (fun _ => Completion.fail), gw2) :: wakes) st2 = worker_run wakes st2 := by
  constructor
  · simp [run_due, h, send_initial_follow_up]
  · simp [worker_run, worker_cycle, run_due_all_fail]

/-- Completion oracle that fails exactly for contact `"C1"`. -/
def c7comp : String → Completion := fun c => if c == "C1" then .fail else .ok "hi"

/-- Witness for C7: `"C1"` fails, `"C2"` is still processed; a wholly failing
wake leaves later wakes unaffected. -/
theorem C7_failure_isolated_witness :
    run_due [("C1", "+1"), ("C2", "+2")] c7comp (fun _ => .http 200 "ok")
        [("C2", ⟨"+2", "scheduled", 0, []⟩)] =
      run_due [("C2", "+2")] c7comp (fun _ => .http 200 "ok")
        [("C2", ⟨"+2", "scheduled", 0, []⟩)] ∧
    worker_run [(1, (fun _ => Completion.fail), fun _ => Gateway.http 200 "ok")]
        [("C2", ⟨"+2", "scheduled", 0, []⟩)] =
      worker_run [] [("C2", ⟨"+2", "scheduled", 0, []⟩)] :=
  C7_failure_isolated "C1" "+1" [("C2", "+2")] c7comp (fun _ => .http 200 "ok")
    (fun _ => .http 200 "ok") [("C2", ⟨"+2", "scheduled", 0, []⟩)]
    [("C2", ⟨"+2", "scheduled", 0, []⟩)] 1 [] (by decide)

/-- C8 counterexample: a 500 from the gateway and a 200 produce the *same*
caller-visible outcome of `send_message_to_wassenger` (a plain `None`
return), even though only one of them delivered the message: the reply-path
caller cannot observe that the send did not succeed. -/
theorem C8_counterexample :
    (send_message_to_wassenger "+100" "msg" (.http 500 "boom")).1 =
      (send_message_to_wassenger "+100" "msg" (.http 200 "ok")).1 ∧
    deliveryOk (Gateway.http 500 "boom") = false ∧
    deliveryOk (Gateway.http 200 "ok") = true := by decide

/-- C8 (amended): on a failed delivery (HTTP error status or network
failure) the dispatcher catches the exception and prints an error line — the
failure is reported to the log, not to the caller: the function always
returns `None`, so the reply-path caller cannot distinguish failure from
success. -/
theorem C8_failure_logged_not_returned (phone msg : String) (gw : Gateway) :
    (send_message_to_wassenger phone msg gw).1 = Outcome.ret () ∧
    (deliveryOk gw = false →
      ∀ p, (send_message_to_wassenger phone msg gw).2 ≠ SendLog.sentOk p) := by
  cases gw with
  | http code body =>
      by_cases hc : 400 ≤ code ∧ code < 600
      · constructor
        · simp [send_message_to_wassenger, hc]
        · intro _ p
          simp [send_message_to_wassenger, hc]
      · constructor
        · simp [send_message_to_wassenger, hc]
        · intro hdel
          exfalso
          rw [deliveryOk] at hdel
          simp at hdel
          exact hc ⟨hdel.1, hdel.2⟩
  | netErr m =>
      exact ⟨rfl, fun _ p => by simp [send_message_to_wassenger]⟩

/-- Witness for C8 (amended): a network failure returns normally and logs a
non-success line. -/
theorem C8_failure_logged_not_returned_witness :
    (send_message_to_wassenger "+100" "msg" (.netErr "down")).1 = Outcome.ret () ∧
    (send_message_to_wassenger "+100" "msg" (.netErr "down")).2 ≠ SendLog.sentOk "+100" :=
  ⟨(C8_failure_logged_not_returned "+100" "msg" (.netErr "down")).1,
   (C8_failure_logged_not_returned "+100" "msg" (.netErr "down")).2 (by decide) "+100"⟩

/-- C9: for an operator-sent message (`fromMe` true), a Conversation is
scheduled exactly when the stripped, uppercased text equals the sentinel
`"START FOLLOWUP"` and no row exists; a matching keyword with an existing
row is a pure no-op, and a non-matching operator message changes nothing and
spawns nothing. -/
theorem C9_keyword_trigger_iff (ev : Event) (t : Int) (st : Store) (cid : String)
    (he : ev.event = some "message:in:new") (hf : ev.fromMe = some true)
    (hc : resolve_contact_id ev = some cid) (hcne : cid ≠ "")
    (hp : pyTruthy (resolve_phone ev) = true) :
    (pyUpper (pyStrip (ev.content.getD "")) = "START FOLLOWUP" →
      (lookupRow st cid = none →
        wassenger_webhook ev t st =
          ⟨.scheduledResp, st ++ [(cid, newRow ((resolve_phone ev).getD "") t)], []⟩ ∧
        (newRow ((resolve_phone ev).getD "") t).status = "scheduled") ∧
      (∀ r, lookupRow st cid = some r →
        wassenger_webhook ev t st = ⟨.alreadyExists, st, []⟩)) ∧
    (pyUpper (pyStrip (ev.content.getD "")) ≠ "START FOLLOWUP" →
      wassenger_webhook ev t st = ⟨.okResp, st, []⟩) := by
  have hct : pyTruthy (some cid) = true := by simp [pyTruthy, hcne]
  constructor
  · intro hkw
    have htr : is_trigger_for ev cid = true := by
      simp [is_trigger_for, is_keyword_trigger, hc, hcne, hp, he, hf, hkw]
    constructor
    · intro hnone
      have hw := webhook_trigger_spec ev t cid st htr
      rw [hnone] at hw
      exact ⟨hw, rfl⟩
    · intro r hsome
      have hw := webhook_trigger_spec ev t cid st htr
      rw [hsome] at hw
      exact hw
  · intro hkw
    simp [wassenger_webhook, hp, hc, hct, he, hf, hkw]

/-- An operator message that is not the sentinel phrase. -/
def c9EvNo : Event :=
  { event := some "message:in:new", top_id := some "C1", data_wid := none,
    data_contact_id := none, data_phone := some "+100", data_contact_phone := none,
    chat_labels := [], content := some "hello there", fromMe := some true }

/-- Witness for C9: the sentinel creates the row on an empty store, is a
no-op when the row exists, and a non-sentinel operator message does
nothing. -/
theorem C9_keyword_trigger_iff_witness :
    ((pyUpper (pyStrip (c1Ev2.content.getD "")) = "START FOLLOWUP" →
      (lookupRow [] "C1" = none →
        wassenger_webhook c1Ev2 7 [] =
          ⟨.scheduledResp, [] ++ [("C1", newRow ((resolve_phone c1Ev2).getD "") 7)], []⟩ ∧
        (newRow ((resolve_phone c1Ev2).getD "") 7).status = "scheduled") ∧
      (∀ r, lookupRow [] "C1" = some r →
        wassenger_webhook c1Ev2 7 [] = ⟨.alreadyExists, [], []⟩)) ∧
    (pyUpper (pyStrip (c1Ev2.content.getD "")) ≠ "START FOLLOWUP" →
      wassenger_webhook c1Ev2 7 [] = ⟨.okResp, [], []⟩)) ∧
    (pyUpper (pyStrip (c9EvNo.content.getD "")) ≠ "START FOLLOWUP" →
      wassenger_webhook c9EvNo 7 [] = ⟨.okResp, [], []⟩) :=
  ⟨C9_keyword_trigger_iff c1Ev2 7 [] "C1" rfl rfl (by decide) (by decide) (by decide),
   (C9_keyword_trigger_iff c9EvNo 7 [] "C1" rfl rfl (by decide) (by decide) (by decide)).2⟩

/-- C10: a well-formed event that is neither a message event nor a
`contact:update` carrying the exact label `"Follow-up"` gets the plain 200
success response and leaves the store untouched (nothing created, updated or
deleted, and no reply thread spawned). -/
theorem C10_nontrigger_success_noop (ev : Event) (t : Int) (st : Store)
    (hp : pyTruthy (resolve_phone ev) = true)
    (hc : pyTruthy (resolve_contact_id ev) = true)
    (hm : ev.event ≠ some "message:in:new")
    (hl : ev.event = some "contact:update" → "Follow-up" ∉ ev.chat_labels) :
    wassenger_webhook ev t st = ⟨.okResp, st, []⟩ ∧
    respCode .okResp = 200 ∧ respStatus .okResp = "success" := by
  refine ⟨?_, rfl, rfl⟩
  by_cases hcu : ev.event = some "contact:update"
  · have hnl := hl hcu
    simp [wassenger_webhook, hp, hc, hcu, hnl]
  · simp [wassenger_webhook, hp, hc, hcu, hm]

/-- A `contact:update` whose labels do not include `"Follow-up"`. -/
def c10Ev : Event :=
  { event := some "contact:update", top_id := some "C1", data_wid := none,
    data_contact_id := none, data_phone := some "+100", data_contact_phone := none,
    chat_labels := ["VIP"], content := none, fromMe := none }

/-- Witness for C10 at a concrete non-trigger `contact:update`. -/
theorem C10_nontrigger_success_noop_witness :
    wassenger_webhook c10Ev 3 [("C7", ⟨"+7", "ongoing", 0, []⟩)] =
      ⟨.okResp, [("C7", ⟨"+7", "ongoing", 0, []⟩)], []⟩ ∧
    respCode .okResp = 200 ∧ respStatus .okResp = "success" :=
  C10_nontrigger_success_noop c10Ev 3 [("C7", ⟨"+7", "ongoing", 0, []⟩)]
    (by decide) (by decide) (by decide) (fun _ => by decide)
